import Mathlib

set_option maxHeartbeats 1600000

namespace Exgen

/-!  Shallow embedding of the exgen-cli option-resolution and validation core.

Data model from src/src/generators/types/index.ts: every `ProjectOptions`
field is optional in TypeScript, so each field is an `Option`; `none` models
an absent key, `some b` an explicitly supplied value.  JavaScript truthiness
of an optional boolean field (`if (options.light)`) is `tB`; truthiness of an
optional string field (`if (options.view)`) is `tS` (the empty string is
falsy in JavaScript).  Object spread `{...a, ...b}` is the field-wise merge
`mergeOptions a b` in which a key present in `b` wins.  -/

structure ProjectOptions where
  view : Option String := none
  css : Option String := none
  git : Option Bool := none
  noView : Option Bool := none
  light : Option Bool := none
  all : Option Bool := none
  prod : Option Bool := none
  min : Option Bool := none
  typescript : Option Bool := none
  javascript : Option Bool := none
  swagger : Option Bool := none
  docker : Option Bool := none
  mongodb : Option Bool := none
  postgres : Option Bool := none
  redis : Option Bool := none
  test : Option Bool := none
  elk : Option Bool := none
  auth : Option Bool := none
  cors : Option Bool := none
  helmet : Option Bool := none
  rateLimit : Option Bool := none
  validation : Option Bool := none
  api : Option Bool := none
  fullstack : Option Bool := none
  microservice : Option Bool := none
  startup : Option Bool := none
  skipInstall : Option Bool := none
  skipGit : Option Bool := none
  verbose : Option Bool := none
  dryRun : Option Bool := none
deriving DecidableEq

/-- JavaScript truthiness of an optional boolean flag. -/
def tB (o : Option Bool) : Bool := o.getD false

/-- JavaScript truthiness of an optional string flag (empty string is falsy). -/
def tS (o : Option String) : Bool :=
  match o with
  | some s => !s.isEmpty
  | none => false

/-- JavaScript `toLowerCase`, modelled character-wise with the ASCII case
mapping, written over the character list so that it evaluates by kernel
reduction. -/
def lowercase (s : String) : String := String.mk (s.data.map Char.toLower)

/-- One field of an object spread `{...low, ...high}`: the high key wins when present. -/
def ov {α : Type} (low high : Option α) : Option α :=
  match high with
  | some v => some v
  | none => low

/-- Object spread `{...low, ...high}` on two (partial) options records. -/
def mergeOptions (low high : ProjectOptions) : ProjectOptions where
  view := ov low.view high.view
  css := ov low.css high.css
  git := ov low.git high.git
  noView := ov low.noView high.noView
  light := ov low.light high.light
  all := ov low.all high.all
  prod := ov low.prod high.prod
  min := ov low.min high.min
  typescript := ov low.typescript high.typescript
  javascript := ov low.javascript high.javascript
  swagger := ov low.swagger high.swagger
  docker := ov low.docker high.docker
  mongodb := ov low.mongodb high.mongodb
  postgres := ov low.postgres high.postgres
  redis := ov low.redis high.redis
  test := ov low.test high.test
  elk := ov low.elk high.elk
  auth := ov low.auth high.auth
  cors := ov low.cors high.cors
  helmet := ov low.helmet high.helmet
  rateLimit := ov low.rateLimit high.rateLimit
  validation := ov low.validation high.validation
  api := ov low.api high.api
  fullstack := ov low.fullstack high.fullstack
  microservice := ov low.microservice high.microservice
  startup := ov low.startup high.startup
  skipInstall := ov low.skipInstall high.skipInstall
  skipGit := ov low.skipGit high.skipGit
  verbose := ov low.verbose high.verbose
  dryRun := ov low.dryRun high.dryRun

/-! Constants from src/unnamed/part_008 (the constants module). -/

def SUPPORTED_VIEW_ENGINES : List String :=
  ["ejs", "pug", "hbs", "hogan", "mustache", "handlebars"]

def SUPPORTED_CSS_ENGINES : List String :=
  ["less", "sass", "scss", "stylus", "compass"]

/-- The source field `example` is a Lean keyword, so it is called
`exampleUsage` here. -/
structure PresetDefinition where
  name : String
  description : String
  options : ProjectOptions
  exampleUsage : String
deriving DecidableEq

def PRESET_DEFINITIONS : List PresetDefinition := [
  { name := "light", description := "Lightweight structure with essentials (TypeScript, basic structure)", options := { light := some true, typescript := some true }, exampleUsage := "exgen my-app --light" },
  { name := "api", description := "REST API preset with TypeScript, CORS, Helmet, Validation, Tests", options := { api := some true, typescript := some true, cors := some true, helmet := some true, validation := some true, test := some true, noView := some true }, exampleUsage := "exgen my-api --api" },
  { name := "fullstack", description := "Full-stack application with views, authentication, and database", options := { fullstack := some true, view := some "ejs", css := some "sass", auth := some true, mongodb := some true, test := some true }, exampleUsage := "exgen my-fullstack-app --fullstack" },
  { name := "microservice", description := "Microservice-ready with Docker, Redis, Tests, and Logging", options := { microservice := some true, typescript := some true, docker := some true, redis := some true, test := some true, elk := some true, noView := some true, cors := some true, helmet := some true }, exampleUsage := "exgen my-service --microservice" },
  { name := "startup", description := "Startup-ready with everything: TypeScript, MongoDB, Auth, Swagger, Docker, Tests", options := { startup := some true, typescript := some true, mongodb := some true, auth := some true, swagger := some true, docker := some true, test := some true, cors := some true, helmet := some true, rateLimit := some true, validation := some true }, exampleUsage := "exgen my-startup --startup" },
  { name := "prod", description := "Full production setup with Docker, Swagger, ELK, Tests", options := { prod := some true, typescript := some true, swagger := some true, docker := some true, test := some true, elk := some true, cors := some true, helmet := some true, rateLimit := some true }, exampleUsage := "exgen my-prod-app --prod" },
  { name := "min", description := "Minimal production setup (excludes Docker and Swagger)", options := { min := some true, typescript := some true, test := some true, cors := some true, helmet := some true }, exampleUsage := "exgen my-min-app --min" }
]

/-! Option resolver from src/src/utils/options.ts. -/

/-- `getPresetOptions` (options.ts lines 75-78). -/
def getPresetOptions (presetName : String) : ProjectOptions :=
  ((PRESET_DEFINITIONS.find? (fun p => p.name == presetName)).map (·.options)).getD {}

/-- `getAllPresetOptions` (options.ts lines 80-90). -/
def getAllPresetOptions : ProjectOptions :=
  { typescript := some true, cors := some true, helmet := some true, rateLimit := some true, validation := some true, test := some true, elk := some true }

/-- `applyPresets` (options.ts lines 35-73): apply built-in presets in a fixed
order, then re-merge the original options on top. -/
def applyPresets (options : ProjectOptions) : ProjectOptions :=
  let resolved := options
  let resolved := if tB options.light then mergeOptions resolved (getPresetOptions "light") else resolved
  let resolved := if tB options.api then mergeOptions resolved (getPresetOptions "api") else resolved
  let resolved := if tB options.fullstack then mergeOptions resolved (getPresetOptions "fullstack") else resolved
  let resolved := if tB options.microservice then mergeOptions resolved (getPresetOptions "microservice") else resolved
  let resolved := if tB options.startup then mergeOptions resolved (getPresetOptions "startup") else resolved
  let resolved := if tB options.min then mergeOptions resolved (getPresetOptions "min") else resolved
  let resolved := if tB options.prod then mergeOptions resolved (getPresetOptions "prod") else resolved
  let resolved := if tB options.all then mergeOptions resolved getAllPresetOptions else resolved
  mergeOptions resolved options

/-- `resolveTypeScript` (options.ts lines 92-113). -/
def resolveTypeScript (options : ProjectOptions) : Bool :=
  if tB options.javascript && !(tB options.typescript) then
    false
  else if tB options.typescript || tB options.api || tB options.microservice ||
      tB options.startup || tB options.prod || tB options.min || tB options.light then
    true
  else
    false

/-- `determineFeatures` (options.ts lines 115-196). -/
def determineFeatures (options : ProjectOptions) : List String :=
  let features : List String := []
  let features := features ++ (if resolveTypeScript options then ["TypeScript"] else ["JavaScript"])
  let features := features ++
    (if !(tB options.noView) then
      (if tS options.view then ["View: " ++ options.view.getD ""]
       else if tB options.fullstack then ["View: EJS"] else [])
     else [])
  let features := features ++ (if tS options.css then ["CSS: " ++ options.css.getD ""] else [])
  let features := features ++ (if tB options.mongodb then ["MongoDB"] else [])
  let features := features ++ (if tB options.postgres then ["PostgreSQL"] else [])
  let features := features ++ (if tB options.redis then ["Redis"] else [])
  let features := features ++ (if tB options.auth then ["JWT Auth"] else [])
  let features := features ++ (if tB options.cors then ["CORS"] else [])
  let features := features ++ (if tB options.helmet then ["Helmet"] else [])
  let features := features ++ (if tB options.rateLimit then ["Rate Limiting"] else [])
  let features := features ++ (if tB options.validation then ["Joi Validation"] else [])
  let features := features ++ (if tB options.swagger then ["Swagger/OpenAPI"] else [])
  let features := features ++ (if tB options.test then ["Jest Testing"] else [])
  let features := features ++ (if tB options.docker then ["Docker"] else [])
  let features := features ++ (if tB options.elk then ["ELK Logging"] else [])
  let features := features ++ (if options.git ≠ some false then ["Git"] else [])
  features

structure ResolvedOptions extends ProjectOptions where
  projectName : String
  projectPath : String
  packageManager : String
  isTypescript : Bool
  features : List String
deriving DecidableEq

/-- `resolveOptions` (options.ts lines 5-33).  `detectPackageManager` probes the
filesystem and installed executables; its result is passed in as the
`packageManager` argument of this embedding. -/
def resolveOptions (packageManager projectName projectPath : String)
    (options : ProjectOptions) : ResolvedOptions :=
  let resolved := applyPresets options
  let isTypescript := resolveTypeScript resolved
  let features := determineFeatures resolved
  { toProjectOptions := resolved, projectName := projectName, projectPath := projectPath, packageManager := packageManager, isTypescript := isTypescript, features := features }

/-- `getFinalViewEngine` (options.ts lines 198-215). -/
def getFinalViewEngine (options : ProjectOptions) : Option String :=
  if tB options.noView then none
  else if tS options.view then options.view
  else if tB options.fullstack then some "ejs"
  else none

/-- `getFinalCSSEngine` (options.ts lines 217-228). -/
def getFinalCSSEngine (options : ProjectOptions) : Option String :=
  if tS options.css then options.css
  else if tB options.fullstack then some "sass"
  else none

/-- `shouldIncludeFeature` (options.ts lines 230-283). -/
def shouldIncludeFeature (feature : String) (options : ResolvedOptions) : Bool :=
  match feature with
  | "view" => !(tB options.noView) && (getFinalViewEngine options.toProjectOptions).isSome
  | "css" => (getFinalCSSEngine options.toProjectOptions).isSome
  | "typescript" => options.isTypescript
  | "mongodb" => tB options.mongodb
  | "postgres" => tB options.postgres
  | "redis" => tB options.redis
  | "swagger" => tB options.swagger
  | "docker" => tB options.docker
  | "test" => tB options.test
  | "auth" => tB options.auth
  | "cors" => tB options.cors
  | "helmet" => tB options.helmet
  | "rateLimit" => tB options.rateLimit
  | "validation" => tB options.validation
  | "elk" => tB options.elk
  | _ => false

/-- `getRequiredDependencies` (options.ts lines 285-349). -/
def getRequiredDependencies (options : ResolvedOptions) : List String :=
  let deps : List String := ["express", "dotenv"]
  let deps := deps ++ (if shouldIncludeFeature "cors" options then ["cors"] else [])
  let deps := deps ++
    (if shouldIncludeFeature "view" options then
      ["cookie-parser", "morgan"] ++
        (match getFinalViewEngine options.toProjectOptions with
         | some viewEngine => [viewEngine]
         | none => [])
     else [])
  let deps := deps ++
    (if shouldIncludeFeature "css" options then
      (match getFinalCSSEngine options.toProjectOptions with
       | some cssEngine =>
         if cssEngine == "sass" || cssEngine == "scss" then ["node-sass-middleware"]
         else if cssEngine == "less" then ["less-middleware"]
         else if cssEngine == "stylus" then ["stylus"]
         else []
       | none => [])
     else [])
  let deps := deps ++ (if shouldIncludeFeature "mongodb" options then ["mongoose"] else [])
  let deps := deps ++ (if shouldIncludeFeature "postgres" options then ["sequelize", "pg"] else [])
  let deps := deps ++ (if shouldIncludeFeature "redis" options then ["ioredis"] else [])
  let deps := deps ++ (if shouldIncludeFeature "swagger" options then ["swagger-jsdoc", "swagger-ui-express"] else [])
  let deps := deps ++ (if shouldIncludeFeature "auth" options then ["jsonwebtoken", "bcryptjs"] else [])
  let deps := deps ++ (if shouldIncludeFeature "helmet" options then ["helmet"] else [])
  let deps := deps ++ (if shouldIncludeFeature "rateLimit" options then ["express-rate-limit"] else [])
  let deps := deps ++ (if shouldIncludeFeature "validation" options then ["joi"] else [])
  let deps := deps ++ (if shouldIncludeFeature "elk" options then ["winston", "winston-elasticsearch"] else [])
  deps

/-- `getRequiredDevDependencies` (options.ts lines 351-412). -/
def getRequiredDevDependencies (options : ResolvedOptions) : List String :=
  let devDeps : List String := ["nodemon"]
  let devDeps := devDeps ++
    (if shouldIncludeFeature "typescript" options then
      ["typescript", "@types/node", "@types/express", "ts-node", "tsx"]
      ++ (if shouldIncludeFeature "cors" options then ["@types/cors"] else [])
      ++ (if shouldIncludeFeature "view" options then
            (match getFinalViewEngine options.toProjectOptions with
             | some viewEngine => if viewEngine == "ejs" then ["@types/ejs"] else []
             | none => [])
          else [])
      ++ (if shouldIncludeFeature "mongodb" options then ["@types/mongoose"] else [])
      ++ (if shouldIncludeFeature "postgres" options then ["@types/pg"] else [])
      ++ (if shouldIncludeFeature "redis" options then ["@types/redis"] else [])
      ++ (if shouldIncludeFeature "swagger" options then ["@types/swagger-jsdoc", "@types/swagger-ui-express"] else [])
      ++ (if shouldIncludeFeature "auth" options then ["@types/jsonwebtoken", "@types/bcryptjs"] else [])
      ++ (if shouldIncludeFeature "helmet" options then ["@types/helmet"] else [])
      ++ (if shouldIncludeFeature "validation" options then ["@types/joi"] else [])
     else [])
  let devDeps := devDeps ++
    (if shouldIncludeFeature "test" options then
      ["jest"] ++ (if options.isTypescript then ["@types/jest", "ts-jest"] else [])
     else [])
  devDeps

/-! Validator from the validation module (second half of src/src/utils/git.ts
as packed; imported in the source as ../utils/validation). -/

structure ValidationResult where
  valid : Bool
  errors : List String
  warnings : List String
deriving DecidableEq

/-- The source's mutation pair `result.valid = false; result.errors.push(...)`:
append fatal messages and mark the result invalid. -/
def pushErrors (result : ValidationResult) (msgs : List String) : ValidationResult :=
  { result with valid := false, errors := result.errors ++ msgs }

/-- The source's `result.warnings.push(...)`: append advisory messages. -/
def pushWarnings (result : ValidationResult) (msgs : List String) : ValidationResult :=
  { result with warnings := result.warnings ++ msgs }

/-- Result shape of the `validate-npm-package-name` npm library. -/
structure NpmValidationResult where
  validForNewPackages : Bool
  errors : Option (List String)
  warnings : Option (List String)
deriving DecidableEq

def urlFriendlyChar (c : Char) : Bool :=
  c.isAlphanum || c == '-' || c == '_' || c == '.'

/-- Modelled from the spec: the `validate-npm-package-name` npm library is an
external dependency whose source is not part of this repository.  Per the
spec's name check, it enforces a package-naming grammar of URL-friendly
characters (alphanumerics and limited punctuation); case mismatches are a
warning, never an error, and the length ceiling is enforced by the caller's
own explicit check. -/
def validateNpmPackageName (name : String) : NpmValidationResult :=
  let errs : List String :=
    if name.data.all urlFriendlyChar then []
    else ["name can only contain URL-friendly characters"]
  { validForNewPackages := errs.isEmpty, errors := if errs.isEmpty then none else some errs, warnings := none }

/-- `validateProjectName` (validation module lines 392-431).  The npm check
pushes its generic message and then, when the library reports error details
(`if (npmValidation.errors)`), the library's own messages; the two pushes are
written here as one append. -/
def validateProjectName (name : String) : ValidationResult :=
  let result : ValidationResult := { valid := true, errors := [], warnings := [] }
  if name.isEmpty then
    pushErrors result ["Project name is required"]
  else
    let npmValidation := validateNpmPackageName name
    let result :=
      if !npmValidation.validForNewPackages then
        pushErrors result
          (["Project name must be a valid npm package name"] ++ npmValidation.errors.getD [])
      else result
    let result := pushWarnings result (npmValidation.warnings.getD [])
    let result :=
      if name.length > 214 then
        pushErrors result ["Project name must be less than 214 characters"]
      else result
    let result :=
      if name ≠ lowercase name then
        pushWarnings result ["Project name should be lowercase"]
      else result
    result

/-- Filesystem state at the target project path, abstracting the `fs` calls
made by `validateProjectPath`: existence and kind of the path, the entries
`readdirSync` would return, and writability of the parent directory. -/
structure PathState where
  pathExists : Bool
  isDirectory : Bool
  dirEntries : List String
  parentWritable : Bool
deriving DecidableEq

/-- `validateProjectPath` (validation module lines 433-474), over the
abstracted filesystem state of the target path. -/
def validateProjectPath (st : PathState) : ValidationResult :=
  let result : ValidationResult := { valid := true, errors := [], warnings := [] }
  if st.pathExists && !st.isDirectory then
    pushErrors result ["A file with this name already exists"]
  else
    let result :=
      if st.pathExists && decide (st.dirEntries.length > 0) then
        pushWarnings result ["Directory is not empty. Files may be overwritten"]
      else result
    if !st.parentWritable then
      pushErrors result ["Parent directory is not writable"]
    else result

/-- `validateOptions` (validation module lines 476-539). -/
def validateOptions (options : ProjectOptions) : ValidationResult :=
  let result : ValidationResult := { valid := true, errors := [], warnings := [] }
  let result :=
    if tS options.view && !(SUPPORTED_VIEW_ENGINES.contains (options.view.getD "")) then
      pushErrors result ["Unsupported view engine: " ++ options.view.getD "" ++ ". Supported engines: " ++ String.intercalate ", " SUPPORTED_VIEW_ENGINES]
    else result
  let result :=
    if tS options.css && !(SUPPORTED_CSS_ENGINES.contains (options.css.getD "")) then
      pushErrors result ["Unsupported CSS engine: " ++ options.css.getD "" ++ ". Supported engines: " ++ String.intercalate ", " SUPPORTED_CSS_ENGINES]
    else result
  let result :=
    if tB options.typescript && tB options.javascript then
      pushWarnings result ["Both TypeScript and JavaScript flags specified. TypeScript will be used"]
    else result
  let result :=
    if tB options.mongodb && tB options.postgres then
      pushWarnings result ["Both MongoDB and PostgreSQL selected. Both will be included"]
    else result
  let result :=
    if tB options.noView && tS options.view then
      pushErrors result ["Cannot specify both --no-view and --view"]
    else result
  let presets : List Bool :=
    [tB options.light, tB options.all, tB options.prod, tB options.min,
     tB options.api, tB options.fullstack, tB options.microservice, tB options.startup]
  let activePresets := presets.filter (fun b => b)
  let result :=
    if activePresets.length > 1 then
      pushWarnings result ["Multiple presets specified. Last one will take precedence"]
    else result
  result

/-! Configuration loading (src/src/utils/config.ts).  `loadConfig` reads an
optional on-disk configuration discovered by cosmiconfig; only the `defaults`
bundle matters to the claims, so the discovered configuration is passed in as
an argument of the embedding. -/

structure ExgenConfig where
  defaults : Option ProjectOptions := none
  packageManager : Option String := none
deriving DecidableEq

/-- `mergeWithConfig` (config.ts lines 31-46): config defaults are merged
below the CLI options, so CLI options take precedence. -/
def mergeWithConfig (options : ProjectOptions) (config : Option ExgenConfig) : ProjectOptions :=
  match config with
  | none => options
  | some c =>
    match c.defaults with
    | none => options
    | some d => mergeOptions d options

/-! Validation phase of `createProject` (src/src/commands/init.ts as packed,
second half, lines 352-419).  The thrown `Error` message carries one
validation check's error list; warnings are logged as each check passes.  The
filesystem state of the resolved project path is abstracted as `PathState`
and the discovered configuration as `Option ExgenConfig`. -/

inductive ValidationPhaseOutcome where
  | threw (errors : List String)
  | proceeded (printedWarnings : List String)
deriving DecidableEq

def createProjectValidationPhase (projectName : Option String) (pathState : PathState)
    (config : Option ExgenConfig) (options : ProjectOptions) : ValidationPhaseOutcome :=
  if (projectName.getD "").isEmpty then
    .threw ["Project name is required. Use: exgen <project-name> [options]"]
  else
    let name := projectName.getD ""
    let nameValidation := validateProjectName name
    if !nameValidation.valid then
      .threw nameValidation.errors
    else
      let printed := nameValidation.warnings
      let pathValidation := validateProjectPath pathState
      if !pathValidation.valid then
        .threw pathValidation.errors
      else
        let printed := printed ++ pathValidation.warnings
        let mergedOptions := mergeWithConfig options config
        let optionsValidation := validateOptions mergedOptions
        if !optionsValidation.valid then
          .threw optionsValidation.errors
        else
          .proceeded (printed ++ optionsValidation.warnings)

/-! Supplementary stages after materialization: dependency installation
(src/src/utils/installer.ts) and git initialization (first half of
src/src/utils/git.ts), and the exit-code behavior of `createProject`
(init.ts lines 444-467). -/

/-- Outcome of the underlying external work (subprocess runs). -/
inductive ExternalResult where
  | success
  | failure (message : String)
deriving DecidableEq

/-- `installDependencies` (installer.ts lines 13-38): on any package
installation failure it logs and then rethrows the error, so the failure
propagates to the caller. -/
def installDependencies (underlying : ExternalResult) : Except String Unit :=
  match underlying with
  | .success => .ok ()
  | .failure e => .error e

/-- Environment seen by the git initializer: whether git is on the PATH,
whether the target is already a repository, and the outcome of the underlying
git subprocess work. -/
structure GitEnvironment where
  gitAvailable : Bool
  alreadyRepository : Bool
  underlying : ExternalResult
deriving DecidableEq

/-- `initializeGit` (git.ts lines 12-59): every failure is caught inside the
function and only logged; the return type `List String` (the logged lines)
makes it explicit that no exception ever propagates. -/
def initializeGit (env : GitEnvironment) : List String :=
  if !env.gitAvailable then
    ["Git is not available - skipping repository initialization",
     "Please install Git to enable version control features"]
  else if env.alreadyRepository then
    ["Directory is already a Git repository"]
  else
    match env.underlying with
    | .success => ["Git repository initialized"]
    | .failure e =>
      ["Failed to initialize Git repository",
       "Git initialization error: " ++ e,
       "Continuing without Git initialization..."]

/-- Exit code of the run after materialization has succeeded, mirroring
init.ts lines 444-467: step 4 awaits `installDependencies`, whose rethrown
error is caught by the top-level catch (lines 464-467) which calls
`process.exit(1)`; step 5 calls `initializeGit`, which never throws; the
completion path exits 0. -/
def createProjectFinalExitCode (options : ProjectOptions)
    (installUnderlying : ExternalResult) (gitEnv : GitEnvironment) : Nat :=
  let installOutcome : Except String Unit :=
    if !(tB options.skipInstall) then installDependencies installUnderlying
    else .ok ()
  match installOutcome with
  | .error _ => 1
  | .ok _ =>
    let _gitLogs :=
      if !(tB options.skipGit) && options.git ≠ some false then initializeGit gitEnv
      else []
    0

/-! Derived predicates used to state language-resolution properties. -/

/-- A preset flag whose built-in bundle sets `typescript: true` is active
(every built-in preset except fullstack, plus the all-features bundle). -/
def tsImplyingPresetActive (o : ProjectOptions) : Bool :=
  tB o.light || tB o.api || tB o.microservice || tB o.startup ||
  tB o.min || tB o.prod || tB o.all

/-- One of the preset flags that `resolveTypeScript` itself consults. -/
def tsLanguagePresetFlag (o : ProjectOptions) : Bool :=
  tB o.api || tB o.microservice || tB o.startup || tB o.prod || tB o.min || tB o.light

/-- Every package name `getRequiredDependencies` can emit, provided the view
engine (when one is set) comes from the supported allow-list. -/
def RUNTIME_DEP_UNIVERSE : List String :=
  ["express", "dotenv", "cors", "cookie-parser", "morgan",
   "ejs", "pug", "hbs", "hogan", "mustache", "handlebars",
   "node-sass-middleware", "less-middleware", "stylus",
   "mongoose", "sequelize", "pg", "ioredis",
   "swagger-jsdoc", "swagger-ui-express", "jsonwebtoken", "bcryptjs",
   "helmet", "express-rate-limit", "joi", "winston", "winston-elasticsearch"]

/-- Every package name `getRequiredDevDependencies` can emit. -/
def DEV_DEP_UNIVERSE : List String :=
  ["nodemon", "typescript", "@types/node", "@types/express", "ts-node", "tsx",
   "@types/cors", "@types/ejs", "@types/mongoose", "@types/pg", "@types/redis",
   "@types/swagger-jsdoc", "@types/swagger-ui-express",
   "@types/jsonwebtoken", "@types/bcryptjs", "@types/helmet", "@types/joi",
   "jest", "@types/jest", "ts-jest"]

/-- A resolved options record with MongoDB, JWT auth and TypeScript enabled:
the concrete input of the dependency-list scenario. -/
def mongoAuthTsOptions : ResolvedOptions :=
  { toProjectOptions := { mongodb := some true, auth := some true }, projectName := "my-app", projectPath := "/work/my-app", packageManager := "npm", isTypescript := true, features := [] }

/-! Helper lemmas about the option merge and preset application. -/

@[simp] theorem ov_some {α : Type} (low : Option α) (v : α) : ov low (some v) = some v := rfl

@[simp] theorem ov_none {α : Type} (low : Option α) : ov low none = low := rfl

@[simp] theorem ov_self {α : Type} (x : Option α) : ov x x = x := by cases x <;> rfl

theorem getPresetOptions_light : getPresetOptions "light" = { light := some true, typescript := some true } := by rfl

theorem getPresetOptions_api : getPresetOptions "api" = { api := some true, typescript := some true, cors := some true, helmet := some true, validation := some true, test := some true, noView := some true } := by rfl

theorem getPresetOptions_fullstack : getPresetOptions "fullstack" = { fullstack := some true, view := some "ejs", css := some "sass", auth := some true, mongodb := some true, test := some true } := by rfl

theorem getPresetOptions_microservice : getPresetOptions "microservice" = { microservice := some true, typescript := some true, docker := some true, redis := some true, test := some true, elk := some true, noView := some true, cors := some true, helmet := some true } := by rfl

theorem getPresetOptions_startup : getPresetOptions "startup" = { startup := some true, typescript := some true, mongodb := some true, auth := some true, swagger := some true, docker := some true, test := some true, cors := some true, helmet := some true, rateLimit := some true, validation := some true } := by rfl

theorem getPresetOptions_prod : getPresetOptions "prod" = { prod := some true, typescript := some true, swagger := some true, docker := some true, test := some true, elk := some true, cors := some true, helmet := some true, rateLimit := some true } := by rfl

theorem getPresetOptions_min : getPresetOptions "min" = { min := some true, typescript := some true, test := some true, cors := some true, helmet := some true } := by rfl

@[simp] theorem mergeOptions_javascript (a b : ProjectOptions) : (mergeOptions a b).javascript = ov a.javascript b.javascript := rfl

@[simp] theorem mergeOptions_typescript (a b : ProjectOptions) : (mergeOptions a b).typescript = ov a.typescript b.typescript := rfl

@[simp] theorem mergeOptions_api (a b : ProjectOptions) : (mergeOptions a b).api = ov a.api b.api := rfl

@[simp] theorem mergeOptions_microservice (a b : ProjectOptions) : (mergeOptions a b).microservice = ov a.microservice b.microservice := rfl

@[simp] theorem mergeOptions_startup (a b : ProjectOptions) : (mergeOptions a b).startup = ov a.startup b.startup := rfl

@[simp] theorem mergeOptions_prod (a b : ProjectOptions) : (mergeOptions a b).prod = ov a.prod b.prod := rfl

@[simp] theorem mergeOptions_min (a b : ProjectOptions) : (mergeOptions a b).min = ov a.min b.min := rfl

@[simp] theorem mergeOptions_light (a b : ProjectOptions) : (mergeOptions a b).light = ov a.light b.light := rfl

theorem applyPresets_javascript (o : ProjectOptions) : (applyPresets o).javascript = o.javascript := by
  simp only [applyPresets, getPresetOptions_light, getPresetOptions_api, getPresetOptions_fullstack,
    getPresetOptions_microservice, getPresetOptions_startup, getPresetOptions_min, getPresetOptions_prod,
    getAllPresetOptions]
  simp [apply_ite (f := ProjectOptions.javascript)]

theorem applyPresets_typescript (o : ProjectOptions) :
    (applyPresets o).typescript =
      (match o.typescript with
       | some b => some b
       | none => if tsImplyingPresetActive o then some true else none) := by
  simp only [applyPresets, getPresetOptions_light, getPresetOptions_api, getPresetOptions_fullstack,
    getPresetOptions_microservice, getPresetOptions_startup, getPresetOptions_min, getPresetOptions_prod,
    getAllPresetOptions]
  simp only [apply_ite (f := ProjectOptions.typescript), mergeOptions_typescript,
    ov_some, ov_none, ite_self]
  cases ht : o.typescript with
  | some b => simp [ht]
  | none =>
    simp only [ht, ov_none]
    simp only [tsImplyingPresetActive]
    by_cases h1 : tB o.light = true <;> by_cases h2 : tB o.api = true <;>
      by_cases h3 : tB o.microservice = true <;> by_cases h4 : tB o.startup = true <;>
      by_cases h5 : tB o.min = true <;> by_cases h6 : tB o.prod = true <;>
      by_cases h7 : tB o.all = true <;>
      simp_all

theorem applyPresets_api (o : ProjectOptions) : (applyPresets o).api = o.api := by
  simp only [applyPresets, getPresetOptions_light, getPresetOptions_api, getPresetOptions_fullstack,
    getPresetOptions_microservice, getPresetOptions_startup, getPresetOptions_min, getPresetOptions_prod,
    getAllPresetOptions]
  simp only [apply_ite (f := ProjectOptions.api), mergeOptions_api, ov_some, ov_none, ite_self]
  cases ha : o.api with
  | some v => simp [ha]
  | none => simp [ha, tB]

theorem applyPresets_microservice (o : ProjectOptions) : (applyPresets o).microservice = o.microservice := by
  simp only [applyPresets, getPresetOptions_light, getPresetOptions_api, getPresetOptions_fullstack,
    getPresetOptions_microservice, getPresetOptions_startup, getPresetOptions_min, getPresetOptions_prod,
    getAllPresetOptions]
  simp only [apply_ite (f := ProjectOptions.microservice), mergeOptions_microservice, ov_some, ov_none, ite_self]
  cases ha : o.microservice with
  | some v => simp [ha]
  | none => simp [ha, tB]

theorem applyPresets_startup (o : ProjectOptions) : (applyPresets o).startup = o.startup := by
  simp only [applyPresets, getPresetOptions_light, getPresetOptions_api, getPresetOptions_fullstack,
    getPresetOptions_microservice, getPresetOptions_startup, getPresetOptions_min, getPresetOptions_prod,
    getAllPresetOptions]
  simp only [apply_ite (f := ProjectOptions.startup), mergeOptions_startup, ov_some, ov_none, ite_self]
  cases ha : o.startup with
  | some v => simp [ha]
  | none => simp [ha, tB]

theorem applyPresets_prod (o : ProjectOptions) : (applyPresets o).prod = o.prod := by
  simp only [applyPresets, getPresetOptions_light, getPresetOptions_api, getPresetOptions_fullstack,
    getPresetOptions_microservice, getPresetOptions_startup, getPresetOptions_min, getPresetOptions_prod,
    getAllPresetOptions]
  simp only [apply_ite (f := ProjectOptions.prod), mergeOptions_prod, ov_some, ov_none, ite_self]
  cases ha : o.prod with
  | some v => simp [ha]
  | none => simp [ha, tB]

theorem applyPresets_min (o : ProjectOptions) : (applyPresets o).min = o.min := by
  simp only [applyPresets, getPresetOptions_light, getPresetOptions_api, getPresetOptions_fullstack,
    getPresetOptions_microservice, getPresetOptions_startup, getPresetOptions_min, getPresetOptions_prod,
    getAllPresetOptions]
  simp only [apply_ite (f := ProjectOptions.min), mergeOptions_min, ov_some, ov_none, ite_self]
  cases ha : o.min with
  | some v => simp [ha]
  | none => simp [ha, tB]

theorem applyPresets_light (o : ProjectOptions) : (applyPresets o).light = o.light := by
  simp only [applyPresets, getPresetOptions_light, getPresetOptions_api, getPresetOptions_fullstack,
    getPresetOptions_microservice, getPresetOptions_startup, getPresetOptions_min, getPresetOptions_prod,
    getAllPresetOptions]
  simp only [apply_ite (f := ProjectOptions.light), mergeOptions_light, ov_some, ov_none, ite_self]
  cases ha : o.light with
  | some v => simp [ha]
  | none => simp [ha, tB]

/-- Language resolution over the preset-merged record, characterized in terms
of the raw flags alone. -/
theorem resolveTypeScript_applyPresets (o : ProjectOptions) :
    resolveTypeScript (applyPresets o) =
      (!(tB o.javascript && !(o.typescript.getD (tsImplyingPresetActive o))) &&
       ((o.typescript.getD (tsImplyingPresetActive o)) || tsLanguagePresetFlag o)) := by
  unfold resolveTypeScript
  rw [applyPresets_javascript, applyPresets_typescript, applyPresets_api, applyPresets_microservice,
     applyPresets_startup, applyPresets_prod, applyPresets_min, applyPresets_light]
  cases ht : o.typescript with
  | some b =>
    cases b <;> by_cases hj : tB o.javascript = true <;>
      by_cases hf : (tB o.api || tB o.microservice || tB o.startup || tB o.prod || tB o.min || tB o.light) = true <;>
      simp_all [tsLanguagePresetFlag, tB]
  | none =>
    by_cases hj : tB o.javascript = true <;>
      by_cases hf : (tB o.api || tB o.microservice || tB o.startup || tB o.prod || tB o.min || tB o.light) = true <;>
      by_cases hp : tsImplyingPresetActive o = true <;>
      simp_all [tsLanguagePresetFlag, tB]

/-! Helper lemmas about dependency-list membership. -/

theorem mem_of_mem_ite_nil {c : Prop} [Decidable c] {l : List String} {x : String}
    (h : x ∈ (if c then l else [])) : x ∈ l := by
  split at h
  · exact h
  · cases h

theorem ball_mem_closer {l L : List String} (h : ∀ y ∈ l, y ∈ L) {x : String} (hx : x ∈ l) :
    x ∈ L := h x hx

theorem getFinalViewEngine_cases {o : ProjectOptions} {v : String}
    (h : getFinalViewEngine o = some v) : o.view = some v ∨ v = "ejs" := by
  unfold getFinalViewEngine at h
  split at h
  · cases h
  · split at h
    · exact Or.inl h
    · split at h
      · exact Or.inr (Option.some.inj h).symm
      · cases h

theorem supported_view_sub_universe : ∀ v ∈ SUPPORTED_VIEW_ENGINES, v ∈ RUNTIME_DEP_UNIVERSE := by
  decide

theorem mem_runtime_universe (o : ResolvedOptions)
    (hview : ∀ v, o.view = some v → v ∈ SUPPORTED_VIEW_ENGINES) :
    ∀ x ∈ getRequiredDependencies o, x ∈ RUNTIME_DEP_UNIVERSE := by
  intro x hx
  simp only [getRequiredDependencies, List.append_assoc, List.mem_append] at hx
  rcases hx with hx | hx | hx | hx | hx | hx | hx | hx | hx | hx | hx | hx | hx
  · exact ball_mem_closer (by decide) hx
  · exact ball_mem_closer (by decide) (mem_of_mem_ite_nil hx)
  · have hx := mem_of_mem_ite_nil hx
    rcases List.mem_append.mp hx with hx | hx
    · exact ball_mem_closer (by decide) hx
    · split at hx
      next eng hgv =>
        simp only [List.mem_singleton] at hx
        subst hx
        rcases getFinalViewEngine_cases hgv with hv | hv
        · exact supported_view_sub_universe _ (hview _ hv)
        · rw [hv]; decide
      next => cases hx
  · have hx := mem_of_mem_ite_nil hx
    split at hx
    next eng hgc =>
      repeat' split at hx
      all_goals exact ball_mem_closer (by decide) hx
    next => cases hx
  · exact ball_mem_closer (by decide) (mem_of_mem_ite_nil hx)
  · exact ball_mem_closer (by decide) (mem_of_mem_ite_nil hx)
  · exact ball_mem_closer (by decide) (mem_of_mem_ite_nil hx)
  · exact ball_mem_closer (by decide) (mem_of_mem_ite_nil hx)
  · exact ball_mem_closer (by decide) (mem_of_mem_ite_nil hx)
  · exact ball_mem_closer (by decide) (mem_of_mem_ite_nil hx)
  · exact ball_mem_closer (by decide) (mem_of_mem_ite_nil hx)
  · exact ball_mem_closer (by decide) (mem_of_mem_ite_nil hx)
  · exact ball_mem_closer (by decide) (mem_of_mem_ite_nil hx)

theorem mem_dev_universe (o : ResolvedOptions) :
    ∀ x ∈ getRequiredDevDependencies o, x ∈ DEV_DEP_UNIVERSE := by
  intro x hx
  simp only [getRequiredDevDependencies, List.append_assoc, List.mem_append] at hx
  rcases hx with hx | hx | hx
  · exact ball_mem_closer (by decide) hx
  · have hx := mem_of_mem_ite_nil hx
    simp only [List.append_assoc, List.mem_append] at hx
    rcases hx with hx | hx | hx | hx | hx | hx | hx | hx | hx | hx
    · exact ball_mem_closer (by decide) hx
    · exact ball_mem_closer (by decide) (mem_of_mem_ite_nil hx)
    · have hx := mem_of_mem_ite_nil hx
      split at hx
      next eng hgv =>
        split at hx
        · exact ball_mem_closer (by decide) hx
        · cases hx
      next => cases hx
    · exact ball_mem_closer (by decide) (mem_of_mem_ite_nil hx)
    · exact ball_mem_closer (by decide) (mem_of_mem_ite_nil hx)
    · exact ball_mem_closer (by decide) (mem_of_mem_ite_nil hx)
    · exact ball_mem_closer (by decide) (mem_of_mem_ite_nil hx)
    · exact ball_mem_closer (by decide) (mem_of_mem_ite_nil hx)
    · exact ball_mem_closer (by decide) (mem_of_mem_ite_nil hx)
    · exact ball_mem_closer (by decide) (mem_of_mem_ite_nil hx)
  · have hx := mem_of_mem_ite_nil hx
    rcases List.mem_append.mp hx with hx | hx
    · exact ball_mem_closer (by decide) hx
    · split at hx
      · exact ball_mem_closer (by decide) hx
      · cases hx

theorem universes_disjoint : ∀ x ∈ RUNTIME_DEP_UNIVERSE, x ∉ DEV_DEP_UNIVERSE := by decide

/-! Helper lemmas about the validation-result invariant. -/

theorem validIffNoErrors_base : ((⟨true, [], []⟩ : ValidationResult).valid = true ↔ (⟨true, [], []⟩ : ValidationResult).errors = []) := by simp

theorem pushErrors_inv (r : ValidationResult) (msgs : List String) (h : msgs ≠ []) :
    ((pushErrors r msgs).valid = true ↔ (pushErrors r msgs).errors = []) := by
  simp [pushErrors, h]

theorem pushWarnings_inv (r : ValidationResult) (msgs : List String)
    (h : r.valid = true ↔ r.errors = []) :
    ((pushWarnings r msgs).valid = true ↔ (pushWarnings r msgs).errors = []) := by
  simpa [pushWarnings] using h

theorem ite_inv {c : Prop} [Decidable c] {a b : ValidationResult}
    (ha : a.valid = true ↔ a.errors = []) (hb : b.valid = true ↔ b.errors = []) :
    ((if c then a else b).valid = true ↔ (if c then a else b).errors = []) := by
  split
  · exact ha
  · exact hb

theorem validateProjectName_inv (name : String) :
    (validateProjectName name).valid = true ↔ (validateProjectName name).errors = [] := by
  simp only [validateProjectName]
  repeat' first
    | exact validIffNoErrors_base
    | apply ite_inv
    | apply pushWarnings_inv
    | apply pushErrors_inv
    | simp

theorem validateProjectPath_inv (st : PathState) :
    (validateProjectPath st).valid = true ↔ (validateProjectPath st).errors = [] := by
  simp only [validateProjectPath]
  repeat' first
    | exact validIffNoErrors_base
    | apply ite_inv
    | apply pushWarnings_inv
    | apply pushErrors_inv
    | simp

theorem validateOptions_inv (o : ProjectOptions) :
    (validateOptions o).valid = true ↔ (validateOptions o).errors = [] := by
  simp only [validateOptions]
  repeat' first
    | exact validIffNoErrors_base
    | apply ite_inv
    | apply pushWarnings_inv
    | apply pushErrors_inv
    | simp

/-! Claim theorems. -/

/-- C1, counterexample: the claim asserts that resolveOptions on
rawOptions prod:true, typescript:false yields isTypescript === false; on the
code it yields true, because resolveTypeScript treats the active prod preset
flag as implying TypeScript regardless of the explicitly false typescript
flag. -/
theorem C1_counterexample :
    ¬ ((resolveOptions "npm" "my-app" "/work/my-app" { prod := some true, typescript := some false }).isTypescript = false) := by
  decide

/-- C1, amended: explicit flags do take final precedence in the merged
options record (the re-merge keeps typescript === false for any explicitly
set value), but resolveTypeScript returns true whenever one of the
TypeScript-implying preset flags is active, so resolveOptions(name, path,
prod:true typescript:false) yields isTypescript === true. -/
theorem C1_explicit_flag_precedence :
    (∀ (o : ProjectOptions) (b : Bool), o.typescript = some b → (applyPresets o).typescript = some b) ∧
    (applyPresets { prod := some true, typescript := some false }).typescript = some false ∧
    (resolveOptions "npm" "my-app" "/work/my-app" { prod := some true, typescript := some false }).isTypescript = true := by
  refine ⟨fun o b hb => ?_, by decide, by decide⟩
  rw [applyPresets_typescript, hb]

/-- C2, counterexample: the claim asserts that whenever javascript is
explicitly set and typescript is not, resolveOptions yields isTypescript ===
false; with javascript:true and api:true the api preset sets typescript:true
before language resolution, and the result is true. -/
theorem C2_counterexample :
    ¬ ((resolveOptions "npm" "my-app" "/work/my-app" { javascript := some true, api := some true }).isTypescript = false) := by
  decide

/-- C2, amended: the javascript-wins rule is evaluated on the preset-merged
record: isTypescript is false exactly when javascript is truthy and the
merged typescript flag (explicit value, else true when a typescript-setting
preset or the all bundle is active) is not truthy, and otherwise true exactly
when the merged typescript flag is truthy or one of the preset flags
api/microservice/startup/prod/min/light is active; with fullstack:true and
no language flag the result is JavaScript and the view engine is ejs. -/
theorem C2_language_resolution :
    (∀ (pm n p : String) (o : ProjectOptions),
        (resolveOptions pm n p o).isTypescript =
          (!(tB o.javascript && !(o.typescript.getD (tsImplyingPresetActive o))) &&
           ((o.typescript.getD (tsImplyingPresetActive o)) || tsLanguagePresetFlag o))) ∧
    (resolveOptions "npm" "my-app" "/work/my-app" { fullstack := some true }).isTypescript = false ∧
    (resolveOptions "npm" "my-app" "/work/my-app" { fullstack := some true }).view = some "ejs" := by
  refine ⟨fun pm n p o => ?_, by decide, by decide⟩
  show resolveTypeScript (applyPresets o) = _
  exact resolveTypeScript_applyPresets o

/-- C3, counterexample: with an invalid project name and simultaneously
invalid options, the validation phase of createProject throws only the name
errors; the options error is not part of the reported message, so the caller
does not aggregate every fatal error across all checks. -/
theorem C3_counterexample :
    (validateOptions { noView := some true, view := some "ejs" }).valid = false ∧
    "Cannot specify both --no-view and --view" ∈ (validateOptions { noView := some true, view := some "ejs" }).errors ∧
    createProjectValidationPhase (some "My App") ⟨false, false, [], true⟩ none { noView := some true, view := some "ejs" } =
      .threw ["Project name must be a valid npm package name", "name can only contain URL-friendly characters"] ∧
    "Cannot specify both --no-view and --view" ∉
      ["Project name must be a valid npm package name", "name can only contain URL-friendly characters"] := by
  decide

/-- C3, amended: the caller short-circuits: the checks run in the order name,
path, options, and the run aborts at the first failing check reporting only
that check's errors; a check's warnings are printed only once it and every
earlier check passed, and all three checks' warnings are printed only on the
all-pass path. -/
theorem C3_validation_short_circuit :
    (∀ (name : String) (st : PathState) (cfg : Option ExgenConfig) (o : ProjectOptions),
        name.isEmpty = false → (validateProjectName name).valid = false →
        createProjectValidationPhase (some name) st cfg o = .threw (validateProjectName name).errors) ∧
    (∀ (name : String) (st : PathState) (cfg : Option ExgenConfig) (o : ProjectOptions),
        name.isEmpty = false → (validateProjectName name).valid = true →
        (validateProjectPath st).valid = false →
        createProjectValidationPhase (some name) st cfg o = .threw (validateProjectPath st).errors) ∧
    (∀ (name : String) (st : PathState) (cfg : Option ExgenConfig) (o : ProjectOptions),
        name.isEmpty = false → (validateProjectName name).valid = true →
        (validateProjectPath st).valid = true →
        (validateOptions (mergeWithConfig o cfg)).valid = false →
        createProjectValidationPhase (some name) st cfg o = .threw (validateOptions (mergeWithConfig o cfg)).errors) ∧
    (∀ (name : String) (st : PathState) (cfg : Option ExgenConfig) (o : ProjectOptions),
        name.isEmpty = false → (validateProjectName name).valid = true →
        (validateProjectPath st).valid = true →
        (validateOptions (mergeWithConfig o cfg)).valid = true →
        createProjectValidationPhase (some name) st cfg o =
          .proceeded ((validateProjectName name).warnings ++ (validateProjectPath st).warnings ++
            (validateOptions (mergeWithConfig o cfg)).warnings)) ∧
    createProjectValidationPhase (some "My App") ⟨false, false, [], true⟩ none {} =
      .threw (validateProjectName "My App").errors := by
  refine ⟨?_, ?_, ?_, ?_, by decide⟩
  · intro name st cfg o hne hval
    simp only [createProjectValidationPhase, Option.getD]
    simp [hne, hval]
  · intro name st cfg o hne hname hpath
    simp only [createProjectValidationPhase, Option.getD]
    simp [hne, hname, hpath]
  · intro name st cfg o hne hname hpath hopts
    simp only [createProjectValidationPhase, Option.getD]
    simp [hne, hname, hpath, hopts]
  · intro name st cfg o hne hname hpath hopts
    simp only [createProjectValidationPhase, Option.getD]
    simp [hne, hname, hpath, hopts]

/-- C4: validateProjectName rejects a name with a space, accepts a fully
lowercase hyphenated name with no warnings, and accepts a mixed-case
hyphenated name with only the lowercase warning (the case mismatch is a
warning, never an error). -/
theorem C4_validateProjectName_cases :
    (validateProjectName "My App").valid = false ∧
    (validateProjectName "My App").errors ≠ [] ∧
    validateProjectName "my-app" = { valid := true, errors := [], warnings := [] } ∧
    validateProjectName "My-App" = { valid := true, errors := [], warnings := ["Project name should be lowercase"] } := by
  decide

/-- C5, counterexample: the claim asserts that a dependency-installer failure
after successful materialization never causes a non-zero exit; in the code
installDependencies rethrows the failure and the top-level catch of
createProject exits with code 1. -/
theorem C5_counterexample :
    createProjectFinalExitCode {} (ExternalResult.failure "npm install failed") ⟨true, false, ExternalResult.success⟩ = 1 ∧
    createProjectFinalExitCode {} (ExternalResult.failure "npm install failed") ⟨true, false, ExternalResult.success⟩ ≠ 0 := by
  decide

/-- C5, amended: only the git initializer is best-effort: every git failure
is caught inside initializeGit and merely logged, and the run exits 0
whenever installation succeeded or was skipped, whatever the git environment;
an installer failure, however, propagates out of installDependencies and the
run exits 1. -/
theorem C5_supplementary_stages :
    (∀ (o : ProjectOptions) (env : GitEnvironment), createProjectFinalExitCode o ExternalResult.success env = 0) ∧
    (∀ (o : ProjectOptions) (inst : ExternalResult) (env : GitEnvironment),
        tB o.skipInstall = true → createProjectFinalExitCode o inst env = 0) ∧
    (∀ (o : ProjectOptions) (e : String) (env : GitEnvironment),
        tB o.skipInstall = false → createProjectFinalExitCode o (ExternalResult.failure e) env = 1) ∧
    initializeGit ⟨true, false, ExternalResult.failure "no user identity"⟩ =
      ["Failed to initialize Git repository", "Git initialization error: no user identity",
       "Continuing without Git initialization..."] := by
  refine ⟨?_, ?_, ?_, by decide⟩
  · intro o env
    simp only [createProjectFinalExitCode, installDependencies]
    by_cases h : tB o.skipInstall = true <;> simp [h]
  · intro o inst env h
    simp only [createProjectFinalExitCode, installDependencies]
    simp [h]
  · intro o e env h
    simp only [createProjectFinalExitCode, installDependencies]
    simp [h]

/-- C6: with flags api:true, resolveOptions yields isTypescript === true and
a features list containing TypeScript, CORS, Helmet, Joi Validation and Jest
Testing, with no view-engine entry. -/
theorem C6_api_preset_scenario :
    (resolveOptions "npm" "demo-api" "/work/demo-api" { api := some true }).isTypescript = true ∧
    "TypeScript" ∈ (resolveOptions "npm" "demo-api" "/work/demo-api" { api := some true }).features ∧
    "CORS" ∈ (resolveOptions "npm" "demo-api" "/work/demo-api" { api := some true }).features ∧
    "Helmet" ∈ (resolveOptions "npm" "demo-api" "/work/demo-api" { api := some true }).features ∧
    "Joi Validation" ∈ (resolveOptions "npm" "demo-api" "/work/demo-api" { api := some true }).features ∧
    "Jest Testing" ∈ (resolveOptions "npm" "demo-api" "/work/demo-api" { api := some true }).features ∧
    ((resolveOptions "npm" "demo-api" "/work/demo-api" { api := some true }).features.filter
      (fun f => "View".data.isPrefixOf f.data)) = [] := by
  decide

/-- C7: the dependency computation is a pure function of the resolved
options; when the set view and CSS engines come from the allow-lists the
runtime and development lists are disjoint, and for mongodb:true auth:true
isTypescript:true the runtime list contains mongoose, jsonwebtoken and
bcryptjs while the development list contains typescript, ts-node and the
matching type-declaration packages; re-running yields the identical list. -/
theorem C7_dependency_lists :
    (∀ o : ResolvedOptions,
        (∀ v, o.view = some v → v ∈ SUPPORTED_VIEW_ENGINES) →
        (∀ c, o.css = some c → c ∈ SUPPORTED_CSS_ENGINES) →
        ∀ x ∈ getRequiredDependencies o, x ∉ getRequiredDevDependencies o) ∧
    "mongoose" ∈ getRequiredDependencies mongoAuthTsOptions ∧
    "jsonwebtoken" ∈ getRequiredDependencies mongoAuthTsOptions ∧
    "bcryptjs" ∈ getRequiredDependencies mongoAuthTsOptions ∧
    "typescript" ∈ getRequiredDevDependencies mongoAuthTsOptions ∧
    "ts-node" ∈ getRequiredDevDependencies mongoAuthTsOptions ∧
    "@types/mongoose" ∈ getRequiredDevDependencies mongoAuthTsOptions ∧
    "@types/jsonwebtoken" ∈ getRequiredDevDependencies mongoAuthTsOptions ∧
    "@types/bcryptjs" ∈ getRequiredDevDependencies mongoAuthTsOptions ∧
    getRequiredDependencies mongoAuthTsOptions = getRequiredDependencies mongoAuthTsOptions := by
  refine ⟨?_, by decide, by decide, by decide, by decide, by decide, by decide, by decide, by decide, rfl⟩
  intro o hview _hcss x hx hdev
  exact universes_disjoint x (mem_runtime_universe o hview x hx) (mem_dev_universe o x hdev)

/-- C8: validateOptions marks an unsupported non-empty view or CSS engine
name as fatal, treats simultaneous typescript and javascript flags as only a
warning, treats simultaneous mongodb and postgres selections as only a
warning, marks noView together with an explicit view engine as fatal, and
treats more than one active named preset as only a warning. -/
theorem C8_validateOptions_rules :
    (∀ (o : ProjectOptions) (v : String), o.view = some v → v.isEmpty = false →
        v ∉ SUPPORTED_VIEW_ENGINES → (validateOptions o).valid = false) ∧
    (∀ (o : ProjectOptions) (c : String), o.css = some c → c.isEmpty = false →
        c ∉ SUPPORTED_CSS_ENGINES → (validateOptions o).valid = false) ∧
    validateOptions { typescript := some true, javascript := some true } =
      { valid := true, errors := [], warnings := ["Both TypeScript and JavaScript flags specified. TypeScript will be used"] } ∧
    validateOptions { mongodb := some true, postgres := some true } =
      { valid := true, errors := [], warnings := ["Both MongoDB and PostgreSQL selected. Both will be included"] } ∧
    validateOptions { noView := some true, view := some "ejs" } =
      { valid := false, errors := ["Cannot specify both --no-view and --view"], warnings := [] } ∧
    validateOptions { api := some true, fullstack := some true } =
      { valid := true, errors := [], warnings := ["Multiple presets specified. Last one will take precedence"] } := by
  refine ⟨?_, ?_, by decide, by decide, by decide, by decide⟩
  · intro o v hv hie hmem
    simp only [validateOptions, hv]
    simp [tS, hie, hmem, pushErrors, pushWarnings, apply_ite (f := ValidationResult.valid)]
  · intro o c hc hie hmem
    simp only [validateOptions, hc]
    simp [tS, hie, hmem, pushErrors, pushWarnings, apply_ite (f := ValidationResult.valid)]

/-- C9: validateProjectPath accepts an existing empty directory with no
warnings, accepts an existing non-empty directory with only the overwrite
warning, rejects a plain file at the path, and rejects a path whose parent
directory is not writable. -/
theorem C9_validateProjectPath_cases :
    validateProjectPath ⟨true, true, [], true⟩ = { valid := true, errors := [], warnings := [] } ∧
    validateProjectPath ⟨true, true, ["index.js"], true⟩ =
      { valid := true, errors := [], warnings := ["Directory is not empty. Files may be overwritten"] } ∧
    (validateProjectPath ⟨true, false, [], true⟩).valid = false ∧
    (validateProjectPath ⟨true, false, [], true⟩).errors = ["A file with this name already exists"] ∧
    (∀ st : PathState, st.parentWritable = false → (validateProjectPath st).valid = false) ∧
    (validateProjectPath ⟨false, false, [], false⟩).valid = false := by
  refine ⟨by decide, by decide, by decide, by decide, ?_, by decide⟩
  intro st hw
  simp only [validateProjectPath]
  split
  · simp [pushErrors]
  · simp [hw, pushErrors, apply_ite (f := ValidationResult.valid)]

/-- C10: for every input, each of validateProjectName, validateProjectPath
and validateOptions returns a result whose valid field is true exactly when
its errors list is empty; warnings never affect validity. -/
theorem C10_validationResult_invariant :
    (∀ name : String, (validateProjectName name).valid = true ↔ (validateProjectName name).errors = []) ∧
    (∀ st : PathState, (validateProjectPath st).valid = true ↔ (validateProjectPath st).errors = []) ∧
    (∀ o : ProjectOptions, (validateOptions o).valid = true ↔ (validateOptions o).errors = []) :=
  ⟨validateProjectName_inv, validateProjectPath_inv, validateOptions_inv⟩

end Exgen
